import Mathlib

/-!
# Verification of the crypto-agent plugin core

Shallow embedding of the market-data cache, asset resolver and portfolio
ledger of the repository (src/unnamed/part_001 — the crypto service —,
src/src/portfolio.ts and src/src/actions/cryptoAction.ts), together with
theorems settling the specification claims.

Modelling choices:
- JavaScript numbers (prices, quantities) are embedded as rationals (ℚ);
  timestamps (Date.now() milliseconds) as integers (ℤ).
- The external HTTP fetch is an oracle parameter of type `Except String α`:
  `.ok data` is a 2xx response with well-formed payload, `.error e` covers a
  non-success status, a network error or a malformed payload (all of which
  the source turns into a thrown-then-caught error).
- The in-memory cache object `cache[endpoint]` is an association list from
  endpoint strings to entries; assignment replaces the entry for that key.
- The database adapter behind portfolioService is an association list from
  user ids to the stored portfolio document (items plus lastUpdated), which
  is exactly the content that getPortfolioMemory/savePortfolio read/write.
-/

namespace CryptoAgent

/-! ## String helpers

Kernel-reducible models of the JavaScript string methods the source uses:
`toLowerCase`, `toUpperCase` and `trim`, as per-character maps and
whitespace-stripping over the character list of the string. -/

/-- Models `s.toLowerCase()`: lowercase every character. -/
def toLowerString (s : String) : String := ⟨s.data.map Char.toLower⟩

/-- Models `s.toUpperCase()`: uppercase every character. -/
def toUpperString (s : String) : String := ⟨s.data.map Char.toUpper⟩

/-- Models `s.trim()`: strip whitespace from both ends. -/
def trimString (s : String) : String :=
  ⟨((s.data.dropWhile Char.isWhitespace).reverse.dropWhile Char.isWhitespace).reverse⟩

/-! ## Market data types (crypto service, src/unnamed/part_001 lines 4-17) -/

/-- Embeds the `CryptoPrice` interface: one row of the ranked market list. -/
structure CryptoPrice where
  id : String
  symbol : String
  name : String
  current_price : ℚ
  market_cap : ℚ
  market_cap_rank : ℕ
  price_change_percentage_24h : ℚ
  high_24h : ℚ
  low_24h : ℚ
  last_updated : String
deriving Repr, DecidableEq

/-! ## Market data cache (src/unnamed/part_001 lines 37-72) -/

/-- Embeds one value of the cache object: `{ data, timestamp }`. -/
structure CacheEntry (α : Type) where
  data : α
  timestamp : ℤ
deriving Repr, DecidableEq

/-- Embeds the mutable module-level `cache` object, keyed by endpoint. -/
abbrev Cache (α : Type) := List (String × CacheEntry α)

/-- Embeds `CACHE_DURATION = 60000` (one minute, in milliseconds). -/
def CACHE_DURATION : ℤ := 60000

/-- Reading `cache[endpoint]`. -/
def cacheLookup {α : Type} (c : Cache α) (k : String) : Option (CacheEntry α) :=
  List.lookup k c

/-- Writing `cache[endpoint] = e`: replaces any previous entry for that key. -/
def cacheInsert {α : Type} (c : Cache α) (k : String) (e : CacheEntry α) : Cache α :=
  (k, e) :: c.filter (fun p => p.1 ≠ k)

/-- The observable outcome of one `apiRequest` call: the returned or thrown
value, how many external fetches were issued, and the cache afterwards. -/
structure ApiOutcome (α : Type) where
  result : Except String α
  externalCalls : ℕ
  cache : Cache α
deriving Repr

instance {α : Type} [DecidableEq α] : DecidableEq (Except String α) := fun a b =>
  match a, b with
  | .ok x, .ok y =>
      if h : x = y then .isTrue (by rw [h])
      else .isFalse (by intro hc; cases hc; exact h rfl)
  | .error x, .error y =>
      if h : x = y then .isTrue (by rw [h])
      else .isFalse (by intro hc; cases hc; exact h rfl)
  | .ok _, .error _ => .isFalse (by intro hc; cases hc)
  | .error _, .ok _ => .isFalse (by intro hc; cases hc)

instance {α : Type} [DecidableEq α] : DecidableEq (ApiOutcome α) := fun a b =>
  match a, b with
  | ⟨r1, n1, c1⟩, ⟨r2, n2, c2⟩ =>
      if h : r1 = r2 ∧ n1 = n2 ∧ c1 = c2 then
        .isTrue (by obtain ⟨h1, h2, h3⟩ := h; rw [h1, h2, h3])
      else .isFalse (by intro hc; cases hc; exact h ⟨rfl, rfl, rfl⟩)

/-- The fetch path of `apiRequest` (lines 54-71): one external call; on
success the cache is updated with the payload and the timestamp `now`
captured at entry; on failure the error propagates and the cache is not
touched. -/
def doFetch {α : Type} (endpoint : String) (now : ℤ) (external : Except String α)
    (cache : Cache α) : ApiOutcome α :=
  match external with
  | .ok data =>
      { result := .ok data
        externalCalls := 1
        cache := cacheInsert cache endpoint { data := data, timestamp := now } }
  | .error e => { result := .error e, externalCalls := 1, cache := cache }

/-- Embeds `apiRequest` (lines 44-72): if a cache entry exists and
`now - timestamp < CACHE_DURATION`, return it with no external call and no
mutation; otherwise fetch. -/
def apiRequest {α : Type} (endpoint : String) (now : ℤ) (external : Except String α)
    (cache : Cache α) : ApiOutcome α :=
  match cacheLookup cache endpoint with
  | some entry =>
      if now - entry.timestamp < CACHE_DURATION then
        { result := .ok entry.data, externalCalls := 0, cache := cache }
      else doFetch endpoint now external cache
  | none => doFetch endpoint now external cache

/-! ## Asset resolver (src/unnamed/part_001 lines 77-101) -/

/-- The endpoint string built by `getTopCryptos` (line 78). -/
def topCryptosEndpoint (count : ℕ) (currency : String) : String :=
  "/coins/markets?vs_currency=" ++ currency ++ "&order=market_cap_desc&per_page=" ++
    toString count ++ "&page=1&sparkline=false"

/-- Embeds `getTopCryptos` (lines 77-80): an `apiRequest` for the ranked-list
endpoint. -/
def getTopCryptos (count : ℕ) (currency : String) (now : ℤ)
    (external : Except String (List CryptoPrice)) (cache : Cache (List CryptoPrice)) :
    ApiOutcome (List CryptoPrice) :=
  apiRequest (topCryptosEndpoint count currency) now external cache

/-- Outcome of a resolver call: the matched coin (or `none`), the number of
external fetches issued underneath, and the cache afterwards. -/
structure ResolveOutcome where
  coin : Option CryptoPrice
  externalCalls : ℕ
  cache : Cache (List CryptoPrice)
deriving Repr, DecidableEq

/-- Embeds `getCryptoByIdOrSymbol` (lines 85-101): lowercase the identifier
(the source does NOT trim it), fetch the top 100 coins through the cache,
return the first coin whose `id` or lowercased `symbol` equals the
normalized identifier; on any fetch failure the catch block returns `null`. -/
def getCryptoByIdOrSymbol (idOrSymbol : String) (currency : String) (now : ℤ)
    (external : Except String (List CryptoPrice)) (cache : Cache (List CryptoPrice)) :
    ResolveOutcome :=
  let normalized := toLowerString idOrSymbol
  let out := getTopCryptos 100 currency now external cache
  match out.result with
  | .ok topCoins =>
      { coin := topCoins.find? (fun c => c.id == normalized || toLowerString c.symbol == normalized)
        externalCalls := out.externalCalls
        cache := out.cache }
  | .error _ => { coin := none, externalCalls := out.externalCalls, cache := out.cache }

/-! ## Portfolio ledger (src/src/portfolio.ts) -/

/-- Embeds the `PortfolioItem` interface (lines 16-23). -/
structure PortfolioItem where
  coinId : String
  symbol : String
  name : String
  quantity : ℚ
  purchasePrice : ℚ
  purchaseDate : ℤ
deriving Repr, DecidableEq

/-- The per-user document that savePortfolio writes and getPortfolioMemory
reads back: the item array plus the stored `lastUpdated` field
(`PortfolioContent`, lines 25-30). -/
structure StoredPortfolio where
  items : List PortfolioItem
  lastUpdated : ℤ
deriving Repr, DecidableEq

/-- The database adapter state, keyed by user id (getPortfolioMemory filters
memories down to the single portfolio document of one user). -/
abbrev Store := List (String × StoredPortfolio)

/-- Reading the stored portfolio document of one user (getPortfolioMemory,
lines 203-234). -/
def storeLookup (s : Store) (userId : String) : Option StoredPortfolio :=
  List.lookup userId s

/-- Embeds `savePortfolio` (lines 239-291): whether it updates the existing
memory or creates a new one, the content written is the full item array
together with `lastUpdated: Date.now()`. -/
def savePortfolio (s : Store) (userId : String) (portfolio : List PortfolioItem)
    (now : ℤ) : Store :=
  (userId, { items := portfolio, lastUpdated := now }) :: s.filter (fun p => p.1 ≠ userId)

/-- The update of an existing position (lines 84-98): sum the quantities,
take the quantity-weighted total value, divide, and refresh purchaseDate;
symbol and name are kept from the existing item (object spread). -/
def mergeItem (existing : PortfolioItem) (quantity purchasePrice : ℚ) (now : ℤ) :
    PortfolioItem :=
  let totalQuantity := existing.quantity + quantity
  let totalValue := existing.quantity * existing.purchasePrice + quantity * purchasePrice
  { existing with
    quantity := totalQuantity
    purchasePrice := totalValue / totalQuantity
    purchaseDate := now }

/-- Embeds `findIndex` on `coinId` followed by the in-place update at that
index (lines 80-98): updates the first item whose coinId matches and
returns it together with the updated list, or `none` when no item matches. -/
def updateFirstMatch (cid : String) (quantity purchasePrice : ℚ) (now : ℤ) :
    List PortfolioItem → Option (PortfolioItem × List PortfolioItem)
  | [] => none
  | item :: rest =>
      if item.coinId == cid then
        let updated := mergeItem item quantity purchasePrice now
        some (updated, updated :: rest)
      else
        match updateFirstMatch cid quantity purchasePrice now rest with
        | some (u, rest2) => some (u, item :: rest2)
        | none => none

/-- Outcome of `addToPortfolio`: the returned item (or `null`), the store
afterwards, and the cache afterwards. -/
structure AddOutcome where
  result : Option PortfolioItem
  store : Store
  cache : Cache (List CryptoPrice)
deriving Repr, DecidableEq

/-- Embeds `portfolioService.addToPortfolio` (lines 39-116): resolve the
coin (returning `null` with no write when resolution fails), load the
user's items, merge into an existing position or append a new one, persist
via savePortfolio, and return the new or updated item. Note the source
performs no validation of `quantity` or `purchasePrice`. -/
def addToPortfolio (userId coinId : String) (quantity purchasePrice : ℚ) (now : ℤ)
    (external : Except String (List CryptoPrice)) (cache : Cache (List CryptoPrice))
    (store : Store) : AddOutcome :=
  let res := getCryptoByIdOrSymbol coinId "usd" now external cache
  match res.coin with
  | none => { result := none, store := store, cache := res.cache }
  | some coin =>
      let portfolio := match storeLookup store userId with
        | some sp => sp.items
        | none => []
      match updateFirstMatch coin.id quantity purchasePrice now portfolio with
      | some (updated, portfolio2) =>
          { result := some updated
            store := savePortfolio store userId portfolio2 now
            cache := res.cache }
      | none =>
          let newItem : PortfolioItem :=
            { coinId := coin.id
              symbol := toUpperString coin.symbol
              name := coin.name
              quantity := quantity
              purchasePrice := purchasePrice
              purchaseDate := now }
          { result := some newItem
            store := savePortfolio store userId (portfolio ++ [newItem]) now
            cache := res.cache }

/-! ## Portfolio view (portfolio.ts getPortfolio, cryptoAction.ts handler) -/

/-- A portfolio item as returned by getPortfolio: the stored fields plus the
optional live-price fields added in the price-update loop. -/
structure ViewItem where
  coinId : String
  symbol : String
  name : String
  quantity : ℚ
  purchasePrice : ℚ
  purchaseDate : ℤ
  currentPrice : Option ℚ
  priceChange24h : Option ℚ
deriving Repr, DecidableEq

/-- The body of the price-update loop of `getPortfolio` (lines 150-166):
look the coin up; on success attach `currentPrice` and `priceChange24h`, on
a `null` result or a thrown error keep the item without live fields. The
`resolve` parameter abstracts the outcome of `getCryptoByIdOrSymbol` for
each coin id during this read. -/
def enrich (resolve : String → Option CryptoPrice) (item : PortfolioItem) : ViewItem :=
  match resolve item.coinId with
  | some coin =>
      { coinId := item.coinId
        symbol := item.symbol
        name := item.name
        quantity := item.quantity
        purchasePrice := item.purchasePrice
        purchaseDate := item.purchaseDate
        currentPrice := some coin.current_price
        priceChange24h := some coin.price_change_percentage_24h }
  | none =>
      { coinId := item.coinId
        symbol := item.symbol
        name := item.name
        quantity := item.quantity
        purchasePrice := item.purchasePrice
        purchaseDate := item.purchaseDate
        currentPrice := none
        priceChange24h := none }

/-- The value returned by a successful `getPortfolio`: every stored item
(enriched where possible) plus `lastUpdated: Date.now()` of this read. -/
structure ViewPortfolio where
  items : List ViewItem
  lastUpdated : ℤ
deriving Repr, DecidableEq

/-- Embeds `portfolioService.getPortfolio` (lines 121-173): `null` when the
user has no stored document or no items; otherwise every stored item, with
live price fields where the per-item lookup succeeds, and `lastUpdated`
set to the current time of this read (line 146), ignoring the stored one. -/
def getPortfolio (resolve : String → Option CryptoPrice) (store : Store)
    (userId : String) (now : ℤ) : Option ViewPortfolio :=
  match storeLookup store userId with
  | none => none
  | some sp =>
      if sp.items.isEmpty then none
      else some { items := sp.items.map (enrich resolve), lastUpdated := now }

/-- Per-position valuation arithmetic of the view-portfolio handler
(src/src/actions/cryptoAction.ts lines 324-327). -/
structure Valuation where
  invested : ℚ
  currentValue : ℚ
  profitLoss : ℚ
  profitLossPercent : ℚ
deriving Repr, DecidableEq

/-- Embeds lines 324-327 of the handler: invested, current value, profit or
loss, and its percentage of the invested value. -/
def valuateItem (quantity purchasePrice currentPrice : ℚ) : Valuation :=
  let invested := quantity * purchasePrice
  let currentValue := quantity * currentPrice
  let profitLoss := currentValue - invested
  { invested := invested
    currentValue := currentValue
    profitLoss := profitLoss
    profitLossPercent := profitLoss / invested * 100 }

/-- Embeds the `totalInvested` accumulation of the handler loop (lines
318-331): items without a `currentPrice` field are skipped by the
`continue`. -/
def totalInvested (items : List ViewItem) : ℚ :=
  (items.filterMap (fun it => it.currentPrice.map (fun _ => it.quantity * it.purchasePrice))).sum

/-- Embeds the `totalCurrentValue` accumulation of the handler loop: items
without a `currentPrice` field are skipped. -/
def totalCurrentValue (items : List ViewItem) : ℚ :=
  (items.filterMap (fun it => it.currentPrice.map (fun cp => it.quantity * cp))).sum

/-- Embeds `totalProfitLoss = totalCurrentValue - totalInvested` (line 343). -/
def totalProfitLoss (items : List ViewItem) : ℚ :=
  totalCurrentValue items - totalInvested items

/-! ## Purchase extraction (src/src/actions/cryptoAction.ts lines 491-570) -/

/-- Embeds the validation logic of `extractCoinPurchaseData`: the regex
capture phase is abstracted into the three arguments (the coin id found in
the text, with "" for none, and the parsed quantity and price, which stay 0
when no pattern matches). The source returns `null` when no coin was
found, when `quantity <= 0`, or when `price <= 0`; otherwise the triple. -/
def extractCoinPurchaseData (coinId : String) (quantity price : ℚ) :
    Option (String × ℚ × ℚ) :=
  if coinId = "" then none
  else if quantity ≤ 0 then none
  else if price ≤ 0 then none
  else some (coinId, quantity, price)

/-! ## Concrete fixtures used by witnesses and counterexamples -/

/-- A concrete top-ranked coin, as the external source would return it. -/
def btc : CryptoPrice :=
  { id := "bitcoin"
    symbol := "btc"
    name := "Bitcoin"
    current_price := 50000
    market_cap := 1000000000
    market_cap_rank := 1
    price_change_percentage_24h := 2
    high_24h := 51000
    low_24h := 49000
    last_updated := "2026-01-01" }

/-- A second concrete coin for multi-position fixtures. -/
def eth : CryptoPrice :=
  { id := "ethereum"
    symbol := "eth"
    name := "Ethereum"
    current_price := 3000
    market_cap := 400000000
    market_cap_rank := 2
    price_change_percentage_24h := -1
    high_24h := 3100
    low_24h := 2900
    last_updated := "2026-01-01" }

/-- A stored bitcoin position used by fixtures. -/
def itemB : PortfolioItem :=
  { coinId := "bitcoin"
    symbol := "BTC"
    name := "Bitcoin"
    quantity := 2
    purchasePrice := 100
    purchaseDate := 10 }

/-- A stored ethereum position used by fixtures. -/
def itemE : PortfolioItem :=
  { coinId := "ethereum"
    symbol := "ETH"
    name := "Ethereum"
    quantity := 5
    purchasePrice := 40
    purchaseDate := 20 }

/-- A resolver fixture that succeeds for bitcoin and fails for everything
else (one position's live quote available, the other's not). -/
def demoResolve : String → Option CryptoPrice :=
  fun s => if s = "bitcoin" then some btc else none

/-! ## General lemmas about the embedded operations -/

/-- Writing a cache entry makes it the entry subsequent lookups of that key
observe. -/
theorem cacheLookup_cacheInsert_self {α : Type} (c : Cache α) (k : String)
    (e : CacheEntry α) : cacheLookup (cacheInsert c k e) k = some e := by
  simp [cacheLookup, cacheInsert, List.lookup]

/-- Reading a user's document back after savePortfolio yields exactly the
written items and the write-time timestamp. -/
theorem storeLookup_savePortfolio_self (s : Store) (userId : String)
    (portfolio : List PortfolioItem) (now : ℤ) :
    storeLookup (savePortfolio s userId portfolio now) userId =
      some { items := portfolio, lastUpdated := now } := by
  simp [storeLookup, savePortfolio, List.lookup]

/-- Characterization of the findIndex-and-update step: when every item
before `existing` has a different coinId and `existing` matches, the merge
updates exactly `existing` in place and returns the updated item. -/
theorem updateFirstMatch_append (cid : String) (q p : ℚ) (now : ℤ)
    (pre : List PortfolioItem) (existing : PortfolioItem) (post : List PortfolioItem)
    (hpre : ∀ it ∈ pre, (it.coinId == cid) = false)
    (hmatch : (existing.coinId == cid) = true) :
    updateFirstMatch cid q p now (pre ++ existing :: post) =
      some (mergeItem existing q p now, pre ++ mergeItem existing q p now :: post) := by
  induction pre with
  | nil => simp [updateFirstMatch, hmatch]
  | cons a as ih =>
      have ha := hpre a (by simp)
      have ih2 := ih (fun it hit => hpre it (by simp [hit]))
      simp [updateFirstMatch, ha, ih2]

/-! ## Claim C1 -/

/-- C1 counterexample: the claim is false on the code. `addToPortfolio`
performs no validation of quantity or price: called with quantity = 0 (and
a resolvable coin) it does not fail — it returns the new item and writes a
zero-quantity position into the previously empty store. -/
theorem c1_counterexample :
    (addToPortfolio "alice" "bitcoin" 0 50 1000 (Except.ok [btc]) [] []).result =
      some { coinId := "bitcoin", symbol := "BTC", name := "Bitcoin", quantity := 0,
             purchasePrice := 50, purchaseDate := 1000 } ∧
    (addToPortfolio "alice" "bitcoin" 0 50 1000 (Except.ok [btc]) [] []).store ≠ [] := by
  constructor <;> decide

/-- C1 amended: the quantity/price domain validation lives in the action's
extraction step, not in the ledger merge. `extractCoinPurchaseData` returns
no purchase (so the action never calls `addToPortfolio`) whenever the
extracted quantity or price is not positive, and any purchase it does
return has a nonempty coin id and positive quantity and price;
`addToPortfolio` itself accepts non-positive values unchecked. -/
theorem c1_extraction_validates (coinId : String) (quantity price : ℚ) :
    (quantity ≤ 0 ∨ price ≤ 0 → extractCoinPurchaseData coinId quantity price = none) ∧
    (∀ r, extractCoinPurchaseData coinId quantity price = some r →
       coinId ≠ "" ∧ 0 < quantity ∧ 0 < price ∧ r = (coinId, quantity, price)) := by
  constructor
  · intro h
    unfold extractCoinPurchaseData
    rcases h with h | h
    · by_cases hc : coinId = "" <;> simp [hc, h]
    · by_cases hc : coinId = "" <;> by_cases hq : quantity ≤ 0 <;> simp [hc, hq, h]
  · intro r hr
    unfold extractCoinPurchaseData at hr
    by_cases hc : coinId = "" <;> by_cases hq : quantity ≤ 0 <;> by_cases hp : price ≤ 0 <;>
      simp [hc, hq, hp] at hr
    exact ⟨hc, lt_of_not_le hq, lt_of_not_le hp, hr.symm⟩

/-- C1 witness: the amended theorem at a concrete invalid purchase — a
zero-quantity bitcoin purchase at price 50 is rejected by the extraction. -/
theorem c1_extraction_validates_witness :
    ((0 : ℚ) ≤ 0 ∨ (50 : ℚ) ≤ 0) ∧ extractCoinPurchaseData "bitcoin" 0 50 = none :=
  ⟨Or.inl le_rfl, (c1_extraction_validates "bitcoin" 0 50).1 (Or.inl le_rfl)⟩

/-! ## Claim C2 -/

/-- C2: merging a purchase (q1 > 0 at price p1 > 0) into an existing
position (q0 > 0 at average cost c0 > 0) in the same asset yields quantity
q0 + q1 and the quantity-weighted average cost (q0·c0 + q1·p1)/(q0 + q1). -/
theorem c2_weighted_average_cost (userId coinId : String) (q1 p1 : ℚ) (now : ℤ)
    (external : Except String (List CryptoPrice)) (cache : Cache (List CryptoPrice))
    (store : Store) (coin : CryptoPrice) (sp : StoredPortfolio)
    (pre : List PortfolioItem) (existing : PortfolioItem) (post : List PortfolioItem)
    (hres : (getCryptoByIdOrSymbol coinId "usd" now external cache).coin = some coin)
    (hstore : storeLookup store userId = some sp)
    (hsplit : sp.items = pre ++ existing :: post)
    (hpre : ∀ it ∈ pre, (it.coinId == coin.id) = false)
    (hmatch : (existing.coinId == coin.id) = true)
    (hq0 : 0 < existing.quantity) (hc0 : 0 < existing.purchasePrice)
    (hq1 : 0 < q1) (hp1 : 0 < p1) :
    ∃ u, (addToPortfolio userId coinId q1 p1 now external cache store).result = some u ∧
      u.quantity = existing.quantity + q1 ∧
      u.purchasePrice =
        (existing.quantity * existing.purchasePrice + q1 * p1) / (existing.quantity + q1) := by
  refine ⟨mergeItem existing q1 p1 now, ?_, rfl, rfl⟩
  simp only [addToPortfolio]
  rw [hres]
  simp only [hstore]
  rw [hsplit, updateFirstMatch_append coin.id q1 p1 now pre existing post hpre hmatch]

/-- C2 witness: the spec's concrete scenario. After merging a purchase of
1 bitcoin at 100 into an empty store, merging 3 more at 140 yields a
position of quantity 4 at weighted average cost 130. -/
theorem c2_weighted_average_cost_witness :
    ∃ u, (addToPortfolio "alice" "btc" 3 140 2000 (Except.ok [btc]) []
        (addToPortfolio "alice" "bitcoin" 1 100 1000 (Except.ok [btc]) [] []).store).result =
      some u ∧ u.quantity = 4 ∧ u.purchasePrice = 130 := by
  obtain ⟨u, h1, h2, h3⟩ :=
    c2_weighted_average_cost "alice" "btc" 3 140 2000 (Except.ok [btc]) []
      (addToPortfolio "alice" "bitcoin" 1 100 1000 (Except.ok [btc]) [] []).store btc
      { items := [{ coinId := "bitcoin", symbol := "BTC", name := "Bitcoin", quantity := 1,
                    purchasePrice := 100, purchaseDate := 1000 }], lastUpdated := 1000 }
      [] { coinId := "bitcoin", symbol := "BTC", name := "Bitcoin", quantity := 1,
           purchasePrice := 100, purchaseDate := 1000 } []
      (by decide) (by decide) rfl (by simp) (by decide)
      (by norm_num) (by norm_num) (by norm_num) (by norm_num)
  refine ⟨u, h1, ?_, ?_⟩
  · rw [h2]; norm_num
  · rw [h3]; norm_num

/-! ## Claim C8 -/

/-- C8: a merge whose coin id does not resolve returns null before any
persistence write — the store afterwards is exactly the store before. -/
theorem c8_unknown_asset_aborts (userId coinId : String) (q p : ℚ) (now : ℤ)
    (external : Except String (List CryptoPrice)) (cache : Cache (List CryptoPrice))
    (store : Store)
    (hres : (getCryptoByIdOrSymbol coinId "usd" now external cache).coin = none) :
    (addToPortfolio userId coinId q p now external cache store).result = none ∧
    (addToPortfolio userId coinId q p now external cache store).store = store := by
  simp only [addToPortfolio]
  rw [hres]
  exact ⟨rfl, rfl⟩

/-- C8 witness: a coin id outside the top-100 window ("notacoin" against a
window holding only bitcoin) aborts the merge and leaves the stored
portfolio of the owner untouched. -/
theorem c8_unknown_asset_aborts_witness :
    (addToPortfolio "alice" "notacoin" 1 50 0 (Except.ok [btc]) []
      [("alice", { items := [itemE], lastUpdated := 42 })]).result = none ∧
    (addToPortfolio "alice" "notacoin" 1 50 0 (Except.ok [btc]) []
      [("alice", { items := [itemE], lastUpdated := 42 })]).store =
      [("alice", { items := [itemE], lastUpdated := 42 })] :=
  c8_unknown_asset_aborts "alice" "notacoin" 1 50 0 (Except.ok [btc]) []
    [("alice", { items := [itemE], lastUpdated := 42 })] (by decide)

/-! ## Claim C3 -/

/-- C3: cache freshness. A request whose entry satisfies
now - fetchedAt < CACHE_DURATION returns the cached payload with no
external call and no cache mutation; a request on a miss, or on a stale
entry, makes exactly one external call and on success stores the payload
under the current timestamp; hence two requests for the same key within
one TTL window (the first a miss) make exactly one external call between
them, the second returning the stored payload and leaving the cache as the
first wrote it. -/
theorem c3_cache_freshness {α : Type} (k : String) (cache : Cache α) (t0 t1 : ℤ)
    (ext0 ext1 : Except String α) (d : α) (entry : CacheEntry α) :
    (cacheLookup cache k = some entry → t0 - entry.timestamp < CACHE_DURATION →
       apiRequest k t0 ext0 cache =
         { result := Except.ok entry.data, externalCalls := 0, cache := cache }) ∧
    (cacheLookup cache k = none → ext0 = Except.ok d →
       apiRequest k t0 ext0 cache =
         { result := Except.ok d, externalCalls := 1,
           cache := cacheInsert cache k { data := d, timestamp := t0 } }) ∧
    (cacheLookup cache k = some entry → ¬ t0 - entry.timestamp < CACHE_DURATION →
       ext0 = Except.ok d →
       apiRequest k t0 ext0 cache =
         { result := Except.ok d, externalCalls := 1,
           cache := cacheInsert cache k { data := d, timestamp := t0 } }) ∧
    (cacheLookup cache k = none → ext0 = Except.ok d → t1 - t0 < CACHE_DURATION →
       (apiRequest k t0 ext0 cache).externalCalls +
         (apiRequest k t1 ext1 (apiRequest k t0 ext0 cache).cache).externalCalls = 1 ∧
       (apiRequest k t1 ext1 (apiRequest k t0 ext0 cache).cache).result = Except.ok d ∧
       (apiRequest k t1 ext1 (apiRequest k t0 ext0 cache).cache).cache =
         (apiRequest k t0 ext0 cache).cache) := by
  refine ⟨?_, ?_, ?_, ?_⟩
  · intro hl hf
    simp [apiRequest, hl, hf]
  · intro hl hd
    simp [apiRequest, doFetch, hl, hd]
  · intro hl hf hd
    simp [apiRequest, doFetch, hl, hf, hd]
  · intro hl hd hfresh
    have h1 : apiRequest k t0 ext0 cache =
        { result := Except.ok d, externalCalls := 1,
          cache := cacheInsert cache k { data := d, timestamp := t0 } } := by
      simp [apiRequest, doFetch, hl, hd]
    rw [h1]
    have h2 : apiRequest k t1 ext1 (cacheInsert cache k { data := d, timestamp := t0 }) =
        { result := Except.ok d, externalCalls := 0,
          cache := cacheInsert cache k { data := d, timestamp := t0 } } := by
      simp [apiRequest, cacheLookup_cacheInsert_self, hfresh]
    rw [h2]
    exact ⟨rfl, rfl, rfl⟩

/-- C3 witness: starting from an empty cache, a fetch at time 0 followed by
a fetch at time 1000 (within the 60000 ms TTL, the source down in between)
issues exactly one external call, and the second fetch still returns the
payload stored by the first. -/
theorem c3_cache_freshness_witness :
    (apiRequest "/k" 0 (Except.ok 5) ([] : Cache ℕ)).externalCalls +
      (apiRequest "/k" 1000 (Except.error "down")
        (apiRequest "/k" 0 (Except.ok 5) ([] : Cache ℕ)).cache).externalCalls = 1 ∧
    (apiRequest "/k" 1000 (Except.error "down")
      (apiRequest "/k" 0 (Except.ok 5) ([] : Cache ℕ)).cache).result = Except.ok 5 ∧
    (apiRequest "/k" 1000 (Except.error "down")
      (apiRequest "/k" 0 (Except.ok 5) ([] : Cache ℕ)).cache).cache =
      (apiRequest "/k" 0 (Except.ok 5) ([] : Cache ℕ)).cache :=
  (c3_cache_freshness "/k" [] 0 1000 (Except.ok 5) (Except.error "down") 5
    { data := 5, timestamp := 0 }).2.2.2 rfl rfl (by decide)

/-! ## Claim C5 -/

/-- C5: when the external call fails, the cache — in particular any
previously stored, possibly stale entry — is left exactly as it was, and
whenever the failing call was actually issued (the lookup was a miss or
the entry was stale) the request fails with the error instead of returning
a payload. -/
theorem c5_failure_leaves_cache_untouched {α : Type} (k : String) (now : ℤ)
    (cache : Cache α) (e : String) :
    (apiRequest k now (Except.error e) cache).cache = cache ∧
    ((∀ entry, cacheLookup cache k = some entry →
        ¬ now - entry.timestamp < CACHE_DURATION) →
      (apiRequest k now (Except.error e) cache).result = Except.error e) := by
  constructor
  · unfold apiRequest doFetch
    cases hl : cacheLookup cache k with
    | none => simp
    | some entry => by_cases hf : now - entry.timestamp < CACHE_DURATION <;> simp [hf]
  · intro hstale
    unfold apiRequest doFetch
    cases hl : cacheLookup cache k with
    | none => simp
    | some entry => simp [hstale entry hl]

/-- C5 witness: with a stale entry (timestamp 0, read at time 100000) and
the source failing, the request fails with the error and the stale entry
is still in the cache, unmodified. -/
theorem c5_failure_leaves_cache_untouched_witness :
    (apiRequest "/k" 100000 (Except.error "boom")
      ([("/k", { data := 7, timestamp := 0 })] : Cache ℕ)).cache =
      [("/k", { data := 7, timestamp := 0 })] ∧
    (apiRequest "/k" 100000 (Except.error "boom")
      ([("/k", { data := 7, timestamp := 0 })] : Cache ℕ)).result = Except.error "boom" :=
  ⟨(c5_failure_leaves_cache_untouched "/k" 100000
      [("/k", { data := 7, timestamp := 0 })] "boom").1,
   (c5_failure_leaves_cache_untouched "/k" 100000
      [("/k", { data := 7, timestamp := 0 })] "boom").2 (by decide)⟩

/-! ## Claim C4 -/

/-- A find? over a window split around a known first match: every element
before `c` fails the predicate and `c` satisfies it, so find? returns
exactly `c`, whatever comes after it. -/
theorem find?_first_of_split {α : Type} (p : α → Bool) (pre : List α) (c : α)
    (post : List α) (hpre : ∀ x ∈ pre, p x = false) (hc : p c = true) :
    (pre ++ c :: post).find? p = some c := by
  induction pre with
  | nil => simp [List.find?, hc]
  | cons a as ih =>
      have ha := hpre a (by simp)
      have ih2 := ih (fun x hx => hpre x (by simp [hx]))
      simp [List.find?, ha, ih2]

/-- A synthetic asset that shares bitcoin's ticker (lowercased symbol
"btc") under a different id, used to observe that the first match wins. -/
def btcClone : CryptoPrice :=
  { id := "bitcoin-clone"
    symbol := "BTC"
    name := "Bitcoin Clone"
    current_price := 1
    market_cap := 5
    market_cap_rank := 90
    price_change_percentage_24h := 0
    high_24h := 2
    low_24h := 1
    last_updated := "2026-01-01" }

/-- C4 counterexample: the claim is false on the code — the resolver does
not trim surrounding whitespace. For the identifier " btc" (leading space)
and a top-100 window holding bitcoin, the trimmed lowercased identifier
equals the lowercased symbol of an asset in the window, so the claimed
behavior finds bitcoin; the code returns no match. -/
theorem c4_counterexample :
    (getCryptoByIdOrSymbol " btc" "usd" 0 (Except.ok [btc]) []).coin = none ∧
    toLowerString (trimString " btc") = toLowerString btc.symbol := by
  constructor <;> decide

/-- C4 amended: the resolver lowercases the identifier (it does not trim
whitespace), fetches the top-100 ranked assets through the cache, and
returns the first asset whose id, or lowercased symbol, equals the
lowercased identifier; when no asset of the fetched window matches, the
result is null — no fuzzy or partial matching, no wider fallback. -/
theorem c4_resolver_exact_matching (idOrSymbol currency : String) (now : ℤ)
    (external : Except String (List CryptoPrice)) (cache : Cache (List CryptoPrice))
    (coins : List CryptoPrice)
    (hok : (apiRequest (topCryptosEndpoint 100 currency) now external cache).result =
      Except.ok coins) :
    ((∀ c ∈ coins, c.id ≠ toLowerString idOrSymbol ∧
        toLowerString c.symbol ≠ toLowerString idOrSymbol) →
      (getCryptoByIdOrSymbol idOrSymbol currency now external cache).coin = none) ∧
    (∀ c', (getCryptoByIdOrSymbol idOrSymbol currency now external cache).coin = some c' →
      c' ∈ coins ∧ (c'.id = toLowerString idOrSymbol ∨
        toLowerString c'.symbol = toLowerString idOrSymbol)) ∧
    (∀ c ∈ coins, (c.id = toLowerString idOrSymbol ∨
        toLowerString c.symbol = toLowerString idOrSymbol) →
      (getCryptoByIdOrSymbol idOrSymbol currency now external cache).coin ≠ none) ∧
    (∀ pre c post, coins = pre ++ c :: post →
      (∀ x ∈ pre, x.id ≠ toLowerString idOrSymbol ∧
        toLowerString x.symbol ≠ toLowerString idOrSymbol) →
      (c.id = toLowerString idOrSymbol ∨
        toLowerString c.symbol = toLowerString idOrSymbol) →
      (getCryptoByIdOrSymbol idOrSymbol currency now external cache).coin = some c) := by
  have hcoin : (getCryptoByIdOrSymbol idOrSymbol currency now external cache).coin =
      coins.find? (fun c => c.id == toLowerString idOrSymbol ||
        toLowerString c.symbol == toLowerString idOrSymbol) := by
    simp only [getCryptoByIdOrSymbol, getTopCryptos]
    rw [hok]
  refine ⟨?_, ?_, ?_, ?_⟩
  · intro h
    rw [hcoin, List.find?_eq_none]
    intro x hx
    have hx2 := h x hx
    simp [hx2.1, hx2.2]
  · intro c' hc'
    rw [hcoin] at hc'
    have hm := List.mem_of_find?_eq_some hc'
    have hp := List.find?_some hc'
    simp only [Bool.or_eq_true, beq_iff_eq] at hp
    exact ⟨hm, hp⟩
  · intro c hc hmatch hnone
    rw [hcoin, List.find?_eq_none] at hnone
    have hfalse := hnone c hc
    simp only [Bool.or_eq_true, beq_iff_eq] at hfalse
    rcases hmatch with h | h
    · exact hfalse (Or.inl h)
    · exact hfalse (Or.inr h)
  · intro pre c post hsplit hpre hc
    rw [hcoin, hsplit]
    apply find?_first_of_split
    · intro x hx
      have hx2 := hpre x hx
      simp [hx2.1, hx2.2]
    · simp only [Bool.or_eq_true, beq_iff_eq]
      exact hc

/-- C4 witness: the amended theorem at concrete inputs. The uppercase
ticker "BTC" resolves against a window holding bitcoin; "xyz" (neither an
id nor a symbol of any asset in the window) does not; and in a window with
a non-matching asset followed by two assets that both carry the ticker
"btc", the first of the two is returned — first exact match wins, even
though the later clone matches too and differs from the result. -/
theorem c4_resolver_exact_matching_witness :
    (getCryptoByIdOrSymbol "BTC" "usd" 0 (Except.ok [btc]) []).coin ≠ none ∧
    (getCryptoByIdOrSymbol "xyz" "usd" 0 (Except.ok [btc]) []).coin = none ∧
    (getCryptoByIdOrSymbol "btc" "usd" 0 (Except.ok [eth, btc, btcClone]) []).coin =
      some btc ∧
    toLowerString btcClone.symbol = toLowerString "btc" ∧ btcClone ≠ btc :=
  ⟨(c4_resolver_exact_matching "BTC" "usd" 0 (Except.ok [btc]) [] [btc]
      (by decide)).2.2.1 btc (by decide) (by decide),
   (c4_resolver_exact_matching "xyz" "usd" 0 (Except.ok [btc]) [] [btc]
      (by decide)).1 (by decide),
   (c4_resolver_exact_matching "btc" "usd" 0 (Except.ok [eth, btc, btcClone]) []
      [eth, btc, btcClone] (by decide)).2.2.2 [eth] btc [btcClone] rfl
      (by decide) (by decide),
   by decide, by decide⟩

/-! ## Claim C6 -/

/-- C6: per-position valuation arithmetic. For every quantity, average cost
and current price the handler computes investedValue = quantity·averageCost,
currentValue = quantity·currentPrice, profitLoss = currentValue −
investedValue and profitLossPercent = profitLoss/investedValue·100; in
particular quantity 2 at average cost 100 with live price 150 values to
200 invested, 300 current, +100 profit, +50 percent. -/
theorem c6_valuation_arithmetic (q avg cp : ℚ) :
    valuateItem q avg cp =
      { invested := q * avg
        currentValue := q * cp
        profitLoss := q * cp - q * avg
        profitLossPercent := (q * cp - q * avg) / (q * avg) * 100 } ∧
    valuateItem 2 100 150 =
      { invested := 200, currentValue := 300, profitLoss := 100, profitLossPercent := 50 } :=
  ⟨rfl, by norm_num [valuateItem]⟩

/-! ## Claim C7 -/

/-- C7: partial degradation of the portfolio view. A read of a nonempty
stored portfolio succeeds whatever the per-coin quote outcomes are, and
returns one view item per stored position in order; a position whose quote
fails keeps all its stored fields with no live price fields, one whose
quote succeeds carries the live price and 24h change; the aggregate totals
of the handler count only positions that have a live price: an item
without one contributes nothing, an item with price cp contributes
quantity·averageCost to totalInvested and quantity·cp to
totalCurrentValue. -/
theorem c7_partial_degradation (resolve : String → Option CryptoPrice) (store : Store)
    (userId : String) (now : ℤ) (sp : StoredPortfolio)
    (hstore : storeLookup store userId = some sp) (hne : sp.items ≠ []) :
    (getPortfolio resolve store userId now =
       some { items := sp.items.map (enrich resolve), lastUpdated := now }) ∧
    (sp.items.map (enrich resolve)).length = sp.items.length ∧
    (∀ item, resolve item.coinId = none →
       enrich resolve item =
         { coinId := item.coinId
           symbol := item.symbol
           name := item.name
           quantity := item.quantity
           purchasePrice := item.purchasePrice
           purchaseDate := item.purchaseDate
           currentPrice := none
           priceChange24h := none }) ∧
    (∀ item coin, resolve item.coinId = some coin →
       enrich resolve item =
         { coinId := item.coinId
           symbol := item.symbol
           name := item.name
           quantity := item.quantity
           purchasePrice := item.purchasePrice
           purchaseDate := item.purchaseDate
           currentPrice := some coin.current_price
           priceChange24h := some coin.price_change_percentage_24h }) ∧
    (∀ v vs, v.currentPrice = none →
       totalInvested (v :: vs) = totalInvested vs ∧
       totalCurrentValue (v :: vs) = totalCurrentValue vs ∧
       totalProfitLoss (v :: vs) = totalProfitLoss vs) ∧
    (∀ v vs cp, v.currentPrice = some cp →
       totalInvested (v :: vs) = v.quantity * v.purchasePrice + totalInvested vs ∧
       totalCurrentValue (v :: vs) = v.quantity * cp + totalCurrentValue vs) := by
  refine ⟨?_, List.length_map _ _, ?_, ?_, ?_, ?_⟩
  · simp only [getPortfolio]
    rw [hstore]
    simp [List.isEmpty_iff, hne]
  · intro item hnone
    simp [enrich, hnone]
  · intro item coin hsome
    simp [enrich, hsome]
  · intro v vs hnone
    refine ⟨?_, ?_, ?_⟩ <;> simp [totalInvested, totalCurrentValue, totalProfitLoss, hnone]
  · intro v vs cp hsome
    constructor <;> simp [totalInvested, totalCurrentValue, hsome]

/-- C7 witness: a stored two-position portfolio (bitcoin and ethereum)
read with a quote source that only knows bitcoin still returns both
positions — bitcoin with its live fields, ethereum without. -/
theorem c7_partial_degradation_witness :
    getPortfolio demoResolve [("alice", { items := [itemB, itemE], lastUpdated := 42 })]
      "alice" 5000 =
      some { items :=
              [{ coinId := "bitcoin", symbol := "BTC", name := "Bitcoin", quantity := 2,
                 purchasePrice := 100, purchaseDate := 10,
                 currentPrice := some 50000, priceChange24h := some 2 },
               { coinId := "ethereum", symbol := "ETH", name := "Ethereum", quantity := 5,
                 purchasePrice := 40, purchaseDate := 20,
                 currentPrice := none, priceChange24h := none }]
             lastUpdated := 5000 } := by
  have h := (c7_partial_degradation demoResolve
    [("alice", { items := [itemB, itemE], lastUpdated := 42 })] "alice" 5000
    { items := [itemB, itemE], lastUpdated := 42 } (by decide) (by decide)).1
  exact h.trans (by decide)

/-! ## Claim C9 -/

/-- C9 counterexample: the claim is false on the code — a merge does set
the stored lastUpdated. Adding a first bitcoin position for a user whose
stored document carried lastUpdated = 42 leaves a document whose stored
lastUpdated is the merge time 5000, not 42. -/
theorem c9_counterexample :
    (storeLookup (addToPortfolio "alice" "bitcoin" 1 100 5000 (Except.ok [btc]) []
        [("alice", { items := [itemE], lastUpdated := 42 })]).store "alice").map
      StoredPortfolio.lastUpdated = some 5000 ∧ (5000 : ℤ) ≠ 42 := by
  constructor <;> decide

/-- C9 amended: both ends stamp. savePortfolio (hence every successful
merge) writes lastUpdated = the mutation time into the stored document,
and every successful valuation ignores the stored value and returns a
portfolio whose lastUpdated is the current time of that read. -/
theorem c9_lastUpdated_both_ends (resolve : String → Option CryptoPrice) (store : Store)
    (userId : String) (portfolio : List PortfolioItem) (nowW nowR : ℤ)
    (sp : StoredPortfolio) :
    (storeLookup (savePortfolio store userId portfolio nowW) userId =
       some { items := portfolio, lastUpdated := nowW }) ∧
    (storeLookup store userId = some sp → sp.items ≠ [] →
       ∃ vp, getPortfolio resolve store userId nowR = some vp ∧ vp.lastUpdated = nowR) := by
  refine ⟨storeLookup_savePortfolio_self store userId portfolio nowW, ?_⟩
  intro hstore hne
  refine ⟨{ items := sp.items.map (enrich resolve), lastUpdated := nowR }, ?_, rfl⟩
  simp only [getPortfolio]
  rw [hstore]
  simp [List.isEmpty_iff, hne]

/-- C9 witness: the amended theorem at concrete inputs — a write at time
7000 stores lastUpdated 7000, and a read at time 9000 of a document stored
with lastUpdated 42 returns lastUpdated 9000. -/
theorem c9_lastUpdated_both_ends_witness :
    (storeLookup (savePortfolio [] "alice" [itemB] 7000) "alice" =
       some { items := [itemB], lastUpdated := 7000 }) ∧
    ∃ vp, getPortfolio demoResolve [("alice", { items := [itemB], lastUpdated := 42 })]
        "alice" 9000 = some vp ∧ vp.lastUpdated = 9000 :=
  ⟨(c9_lastUpdated_both_ends demoResolve [] "alice" [itemB] 7000 9000
      { items := [itemB], lastUpdated := 42 }).1,
   (c9_lastUpdated_both_ends demoResolve
      [("alice", { items := [itemB], lastUpdated := 42 })] "alice" [itemB] 7000 9000
      { items := [itemB], lastUpdated := 42 }).2 (by decide) (by decide)⟩

/-! ## Claim C10 -/

/-- C10: the resolver returns null both on a data-source failure and on an
unknown identifier, so a merge attempted while the source is unavailable
fails exactly as if the asset were unknown: addToPortfolio returns null
and writes nothing, with no distinct error value to tell the two apart. -/
theorem c10_outage_looks_like_unknown (idOrSymbol userId : String) (q p : ℚ)
    (now : ℤ) (ext : Except String (List CryptoPrice))
    (cache : Cache (List CryptoPrice)) (store : Store) (e : String) :
    ((apiRequest (topCryptosEndpoint 100 "usd") now ext cache).result = Except.error e →
       (getCryptoByIdOrSymbol idOrSymbol "usd" now ext cache).coin = none) ∧
    (∀ coins, (apiRequest (topCryptosEndpoint 100 "usd") now ext cache).result =
        Except.ok coins →
      (∀ c ∈ coins, c.id ≠ toLowerString idOrSymbol ∧
        toLowerString c.symbol ≠ toLowerString idOrSymbol) →
      (getCryptoByIdOrSymbol idOrSymbol "usd" now ext cache).coin = none) ∧
    ((getCryptoByIdOrSymbol idOrSymbol "usd" now ext cache).coin = none →
       (addToPortfolio userId idOrSymbol q p now ext cache store).result = none ∧
       (addToPortfolio userId idOrSymbol q p now ext cache store).store = store) := by
  refine ⟨?_, ?_, ?_⟩
  · intro herr
    simp only [getCryptoByIdOrSymbol, getTopCryptos]
    rw [herr]
  · intro coins hok h
    have hcoin : (getCryptoByIdOrSymbol idOrSymbol "usd" now ext cache).coin =
        coins.find? (fun c => c.id == toLowerString idOrSymbol ||
          toLowerString c.symbol == toLowerString idOrSymbol) := by
      simp only [getCryptoByIdOrSymbol, getTopCryptos]
      rw [hok]
    rw [hcoin, List.find?_eq_none]
    intro x hx
    have hx2 := h x hx
    simp [hx2.1, hx2.2]
  · intro hnone
    simp only [addToPortfolio]
    rw [hnone]
    exact ⟨rfl, rfl⟩

/-- C10 witness: with the data source down, resolving bitcoin yields null
and the merge aborts without touching the store — observably the same as
an unknown asset. -/
theorem c10_outage_looks_like_unknown_witness :
    (getCryptoByIdOrSymbol "bitcoin" "usd" 0 (Except.error "down") []).coin = none ∧
    (addToPortfolio "alice" "bitcoin" 1 100 0 (Except.error "down") [] []).result = none ∧
    (addToPortfolio "alice" "bitcoin" 1 100 0 (Except.error "down") [] []).store = [] := by
  have h := c10_outage_looks_like_unknown "bitcoin" "alice" 1 100 0
    (Except.error "down") [] [] "down"
  have h1 := h.1 (by decide)
  exact ⟨h1, (h.2.2 h1).1, (h.2.2 h1).2⟩

end CryptoAgent
